import Mathlib

/-!
Shallow embedding of the policy-server evaluation core: the response shaper
(`Worker::validation_response_with_constraints` plus the namespace-override
step of `Worker::run` in src/worker.rs) and the per-request body of the
worker main loop together with the HTTP front-end reply mapping
(`validation` in src/api.rs).

External wire types (`AdmissionResponse`, `AdmissionRequest`,
`AdmissionReview`) come from crates outside this repository; they are
modelled with the fields the spec's data model lists and the core reads.
-/

/-- Status sub-object of an admission response:
`AdmissionResponseStatus { message?, code? }`. -/
structure AdmissionResponseStatus where
  message : Option String
  code : Option Nat
deriving Repr, DecidableEq

/-- External wire type `AdmissionResponse`, with the fields the spec's data
model lists: `uid`, `allowed`, `patch?`, `patch_type?`, `status?`. -/
structure AdmissionResponse where
  uid : String
  allowed : Bool
  patch : Option String
  patch_type : Option String
  status : Option AdmissionResponseStatus
deriving Repr, DecidableEq

/-- `group/version/kind` triple carried by `request_kind`. -/
structure GroupVersionKind where
  group : String
  version : String
  kind : String
deriving Repr, DecidableEq

/-- External wire type `AdmissionRequest`, restricted to the fields the
worker reads: `uid`, `namespace`, `operation`, `request_kind`. -/
structure AdmissionRequest where
  uid : String
  «namespace» : Option String
  operation : String
  request_kind : Option GroupVersionKind
deriving Repr, DecidableEq

/-- `PolicyMode` from settings.rs: `Protect` or `Monitor`. -/
inductive PolicyMode where
  | Protect
  | Monitor
deriving Repr, DecidableEq

/-- `Worker::validation_response_with_constraints` (src/worker.rs lines
121-168): Protect mode rejects a disallowed mutation, Monitor mode always
accepts with patch, patch_type and status cleared. -/
def validation_response_with_constraints (policy_id : String)
    (policy_mode : PolicyMode) (allowed_to_mutate : Bool)
    (validation_response : AdmissionResponse) : AdmissionResponse :=
  match policy_mode with
  | PolicyMode.Protect =>
    if validation_response.patch.isSome && !allowed_to_mutate then
      { validation_response with
        allowed := false
        status := some
          { message := some ("Request rejected by policy " ++ policy_id ++
              ". The policy attempted to mutate the request, but it is currently configured to not allow mutations.")
            code := none }
        patch := none
        patch_type := none }
    else
      validation_response
  | PolicyMode.Monitor =>
    { validation_response with
      allowed := true
      patch_type := none
      patch := none
      status := none }

/-- The namespace-override step of `Worker::run` (src/worker.rs lines
201-221): when `always_accept_admission_reviews_on_namespace` is set and
equals the request namespace, force `allowed := true`, keeping every other
field. -/
def namespace_override (accept_ns : Option String)
    (req_namespace : Option String)
    (validation_response : AdmissionResponse) : AdmissionResponse :=
  match accept_ns with
  | some ns =>
    if req_namespace = some ns then
      { validation_response with allowed := true }
    else
      validation_response
  | none => validation_response

/-- The full response shaper of the spec: mode projection followed by the
namespace override, exactly as composed in `Worker::run`. -/
def shape (policy_id : String) (mode : PolicyMode) (allowed_to_mutate : Bool)
    (accept_ns : Option String) (raw : AdmissionResponse)
    (req_namespace : Option String) : AdmissionResponse :=
  namespace_override accept_ns req_namespace
    (validation_response_with_constraints policy_id mode allowed_to_mutate raw)

/-- Modelled from the spec: `AdmissionResponse::reject(uid, message, code)`
from the external policy-evaluator crate, missing from src/. The spec
describes the worker's use of it as a synthetic rejection
`{allowed: false, status: {code, message}}`; its first argument fills the
response `uid` field (the call site in src/worker.rs passes it
positionally). -/
def AdmissionResponse.reject (uid : String) (message : String)
    (code : Nat) : AdmissionResponse :=
  { uid := uid
    allowed := false
    patch := none
    patch_type := none
    status := some { message := some message, code := some code } }

/-- Per-policy entry of the worker's evaluator map
(`PolicyEvaluatorWithSettings` in src/worker.rs). The sandbox evaluator is
external; only its `validate` behaviour (a function from serialized JSON to
a raw response) and its `policy.id` (read as `policy_name` for metrics) are
kept. -/
structure PolicyEvaluatorWithSettings where
  policy_name : String
  validate : String → AdmissionResponse
  policy_mode : PolicyMode
  allowed_to_mutate : Bool
  always_accept_admission_reviews_on_namespace : Option String

/-- `EvalRequest` (crate::communication): policy id plus the admission
request. The one-shot reply sink and the trace span are not data; the
replies a step sends are collected in `StepResult`. -/
structure EvalRequest where
  policy_id : String
  req : AdmissionRequest
deriving Repr, DecidableEq

/-- Modelled from the spec: the label set `metrics::PolicyEvaluation`
(crate::metrics, missing from src/), with the fields the worker fills in
src/worker.rs lines 225-234. -/
structure PolicyEvaluation where
  policy_name : String
  policy_mode : PolicyMode
  resource_namespace : Option String
  resource_kind : String
  resource_request_operation : String
  accepted : Bool
  mutated : Bool
  error_code : Option Nat
deriving Repr, DecidableEq

/-- A metrics recording performed by the worker: one latency-histogram
observation (`metrics::record_policy_latency`) or one evaluation-counter
increment (`metrics::add_policy_evaluation`). -/
inductive MetricEvent where
  | latency (labels : PolicyEvaluation)
  | evaluation (labels : PolicyEvaluation)
deriving Repr, DecidableEq

/-- Observable effects of one iteration of the worker main loop: the values
sent on the request's reply sink (in order), the metrics recordings, how
many times the sandbox evaluator was invoked, and whether a
"receiver dropped" error was logged. -/
structure StepResult where
  replies : List (Option AdmissionResponse)
  metrics : List MetricEvent
  evaluator_calls : Nat
  logged_receiver_dropped : Bool
deriving Repr, DecidableEq

/-- Body of the `while let Some(req)` loop of `Worker::run` (src/worker.rs
lines 171-257). `evaluators` is the worker's map, `serialize` models
`serde_json::to_value` on the admission request (external, fallible), and
`receiver_alive` tells whether `resp_chan.send` succeeds; a failed send is
only logged (`logged_receiver_dropped`). -/
def workerStep (evaluators : String → Option PolicyEvaluatorWithSettings)
    (serialize : AdmissionRequest → Except String String)
    (receiver_alive : Bool) (req : EvalRequest) : StepResult :=
  match evaluators req.policy_id with
  | some pews =>
    match serialize req.req with
    | Except.ok json =>
      let vanilla_validation_response := pews.validate json
      let error_code :=
        match vanilla_validation_response.status with
        | some status => status.code
        | none => none
      let validation_response := validation_response_with_constraints
        req.policy_id pews.policy_mode pews.allowed_to_mutate
        vanilla_validation_response
      let validation_response := namespace_override
        pews.always_accept_admission_reviews_on_namespace
        req.req.«namespace» validation_response
      let accepted := vanilla_validation_response.allowed
      let mutated := vanilla_validation_response.patch.isSome
      let policy_evaluation : PolicyEvaluation :=
        { policy_name := pews.policy_name
          policy_mode := pews.policy_mode
          resource_namespace := req.req.«namespace»
          resource_kind :=
            (req.req.request_kind.getD { group := "", version := "", kind := "" }).kind
          resource_request_operation := req.req.operation
          accepted := accepted
          mutated := mutated
          error_code := error_code }
      { replies := [some validation_response]
        metrics := [MetricEvent.latency policy_evaluation,
                    MetricEvent.evaluation policy_evaluation]
        evaluator_calls := 1
        logged_receiver_dropped := !receiver_alive }
    | Except.error e =>
      let error_msg := "Failed to serialize AdmissionReview: " ++ e
      { replies := [some (AdmissionResponse.reject req.policy_id error_msg 400)]
        metrics := []
        evaluator_calls := 0
        logged_receiver_dropped := !receiver_alive }
  | none =>
    { replies := [none]
      metrics := []
      evaluator_calls := 0
      logged_receiver_dropped := !receiver_alive }

/-- The whole `Worker::run` loop over a queue of requests: every dequeued
request is processed by `workerStep`; a failed send never breaks the loop
(the source only logs it). `alive` tells, per request, whether its reply
receiver is still alive. -/
def workerRun (evaluators : String → Option PolicyEvaluatorWithSettings)
    (serialize : AdmissionRequest → Except String String)
    (alive : EvalRequest → Bool) : List EvalRequest → List StepResult
  | [] => []
  | req :: rest =>
    workerStep evaluators serialize (alive req) req ::
      workerRun evaluators serialize alive rest

/-- External wire type `AdmissionReview`: optional `request`, optional
`response`. -/
structure AdmissionReview where
  request : Option AdmissionRequest
  response : Option AdmissionResponse
deriving Repr, DecidableEq

/-- Modelled from the spec: `AdmissionReview::new_with_response`
(crate::admission_review, missing from src/) builds an `AdmissionReview`
whose `response` field contains the given shaped `AdmissionResponse`. -/
def AdmissionReview.new_with_response (r : AdmissionResponse) : AdmissionReview :=
  { request := none, response := some r }

/-- An HTTP reply of the `validation` handler in src/api.rs: either a JSON
`AdmissionReview` or a `ServerErrorResponse {message}`, each with its HTTP
status code. -/
inductive HttpReply where
  | admissionReview (review : AdmissionReview) (status : Nat)
  | errorReply (message : String) (status : Nat)
deriving Repr, DecidableEq

/-- The outcome of awaiting the one-shot reply channel in the `validation`
handler: a worker reply (known-policy verdict or the "not known" signal
`none`), or a broken channel. -/
inductive ChannelResult where
  | ok (reply : Option AdmissionResponse)
  | err
deriving Repr, DecidableEq

/-- The reply-mapping stage of `validation` (src/api.rs lines 116-155):
a shaped response is wrapped in an `AdmissionReview` with status 200, the
"not known" signal becomes 404, a broken channel becomes 500. -/
def validationReply (res : ChannelResult) : HttpReply :=
  match res with
  | ChannelResult.ok (some vr) =>
    HttpReply.admissionReview (AdmissionReview.new_with_response vr) 200
  | ChannelResult.ok none =>
    HttpReply.errorReply "requested policy not known" 404
  | ChannelResult.err =>
    HttpReply.errorReply "broken channel" 500

/-- End-to-end handling of one `POST /validate/{policy_id}` request
(src/api.rs `validation` composed with one `workerStep`): a review without
a `request` is rejected with 400; otherwise an `EvalRequest` is built, the
worker's single reply is awaited and mapped by `validationReply`. The
handler is awaiting, so the reply receiver is alive. -/
def handleValidation (evaluators : String → Option PolicyEvaluatorWithSettings)
    (serialize : AdmissionRequest → Except String String)
    (policy_id : String) (admission_review : AdmissionReview) : HttpReply :=
  match admission_review.request with
  | none =>
    HttpReply.errorReply "No Request object defined inside AdmissionReview object" 400
  | some adm_req =>
    let step := workerStep evaluators serialize true
      { policy_id := policy_id, req := adm_req }
    match step.replies with
    | [r] => validationReply (ChannelResult.ok r)
    | _ => validationReply ChannelResult.err

/-- C1: in Protect mode with `allowed_to_mutate = false`, any raw response
whose patch is set is replaced by a rejection: `allowed = false`, patch and
patch_type cleared, and a status with `code = none` and exactly the fixed
mutation-rejection message naming the policy id. -/
theorem protect_mode_rejects_disallowed_mutation (policy_id : String)
    (raw : AdmissionResponse) (h : raw.patch.isSome = true) :
    validation_response_with_constraints policy_id PolicyMode.Protect false raw =
      { raw with
        allowed := false
        patch := none
        patch_type := none
        status := some
          { message := some ("Request rejected by policy " ++ policy_id ++
              ". The policy attempted to mutate the request, but it is currently configured to not allow mutations.")
            code := none } } := by
  simp [validation_response_with_constraints, h]

theorem protect_mode_rejects_disallowed_mutation_witness :
    ({ uid := "U1", allowed := true, patch := some "P",
       patch_type := some "application/json-patch+json",
       status := none } : AdmissionResponse).patch.isSome = true ∧
    validation_response_with_constraints "psp-caps" PolicyMode.Protect false
      { uid := "U1", allowed := true, patch := some "P",
        patch_type := some "application/json-patch+json", status := none } =
      { uid := "U1", allowed := false, patch := none, patch_type := none,
        status := some
          { message := some ("Request rejected by policy psp-caps" ++
              ". The policy attempted to mutate the request, but it is currently configured to not allow mutations.")
            code := none } } :=
  ⟨rfl, protect_mode_rejects_disallowed_mutation "psp-caps"
    { uid := "U1", allowed := true, patch := some "P",
      patch_type := some "application/json-patch+json", status := none } rfl⟩

/-- C2: in Monitor mode with no namespace override, the shaped response has
`allowed = true` and `patch`, `patch_type`, `status` all cleared, for every
raw response, policy id and mutation permission. -/
theorem monitor_mode_always_allows_and_clears (policy_id : String)
    (atm : Bool) (raw : AdmissionResponse) (ns : Option String) :
    (shape policy_id PolicyMode.Monitor atm none raw ns).allowed = true ∧
    (shape policy_id PolicyMode.Monitor atm none raw ns).patch = none ∧
    (shape policy_id PolicyMode.Monitor atm none raw ns).patch_type = none ∧
    (shape policy_id PolicyMode.Monitor atm none raw ns).status = none := by
  simp [shape, namespace_override, validation_response_with_constraints]

/-- C5: when `accept_ns` is set and equals the request namespace, the final
response is exactly the mode-projection result with `allowed` forced to
true: every other field (including a surviving patch) is unchanged. -/
theorem namespace_override_forces_allowed_preserving_rest (policy_id : String)
    (mode : PolicyMode) (atm : Bool) (ns : String) (raw : AdmissionResponse) :
    shape policy_id mode atm (some ns) raw (some ns) =
      { validation_response_with_constraints policy_id mode atm raw with
        allowed := true } := by
  simp [shape, namespace_override]

/-- C6: in Protect mode with no namespace override, the shaper is the
identity whenever the rejection guard does not fire: when the raw patch is
absent, or when the policy is allowed to mutate. -/
theorem protect_mode_identity_without_guard (policy_id : String) (atm : Bool)
    (raw : AdmissionResponse) (ns : Option String)
    (h : raw.patch = none ∨ atm = true) :
    shape policy_id PolicyMode.Protect atm none raw ns = raw := by
  rcases h with h | h <;>
    simp [shape, namespace_override, validation_response_with_constraints, h]

theorem protect_mode_identity_without_guard_witness :
    (({ uid := "U1", allowed := true, patch := none, patch_type := none,
        status := none } : AdmissionResponse).patch = none ∨ false = true) ∧
    shape "psp-caps" PolicyMode.Protect false none
      { uid := "U1", allowed := true, patch := none, patch_type := none,
        status := none } (some "dev") =
      { uid := "U1", allowed := true, patch := none, patch_type := none,
        status := none } :=
  ⟨Or.inl rfl, protect_mode_identity_without_guard "psp-caps" false
    { uid := "U1", allowed := true, patch := none, patch_type := none,
      status := none } (some "dev") (Or.inl rfl)⟩

/-- C9: when `accept_ns` is set to a namespace different from the request's
namespace (including a request with no namespace at all), the shaped
response is the one produced with `accept_ns` unset. -/
theorem namespace_override_noop_on_mismatch (policy_id : String)
    (mode : PolicyMode) (atm : Bool) (nsA : String) (raw : AdmissionResponse)
    (req_ns : Option String) (h : req_ns ≠ some nsA) :
    shape policy_id mode atm (some nsA) raw req_ns =
      shape policy_id mode atm none raw req_ns := by
  simp [shape, namespace_override, h]

theorem namespace_override_noop_on_mismatch_witness :
    ((none : Option String) ≠ some "kube-system") ∧
    shape "psp-caps" PolicyMode.Protect true (some "kube-system")
      { uid := "U1", allowed := false, patch := none, patch_type := none,
        status := none } none =
      shape "psp-caps" PolicyMode.Protect true none
        { uid := "U1", allowed := false, patch := none, patch_type := none,
          status := none } none :=
  ⟨by decide, namespace_override_noop_on_mismatch "psp-caps" PolicyMode.Protect
    true "kube-system"
    { uid := "U1", allowed := false, patch := none, patch_type := none,
      status := none } none (by decide)⟩

/-- C10: every branch of the shaper only touches `allowed`, `patch`,
`patch_type` and `status`: writing the raw values of those four fields back
into the shaped response recovers the raw response exactly, and in
particular the `uid` carries over unchanged. -/
theorem shaper_preserves_untouched_fields (policy_id : String)
    (mode : PolicyMode) (atm : Bool) (raw : AdmissionResponse) :
    ({ validation_response_with_constraints policy_id mode atm raw with
        allowed := raw.allowed
        patch := raw.patch
        patch_type := raw.patch_type
        status := raw.status } : AdmissionResponse) = raw ∧
    (validation_response_with_constraints policy_id mode atm raw).uid = raw.uid := by
  cases mode with
  | Protect =>
    by_cases h : raw.patch.isSome && !atm <;>
      simp [validation_response_with_constraints, h]
  | Monitor => simp [validation_response_with_constraints]

/-- C3: counter-evidence. For a known policy whose admission request fails
to serialize, the request is answered with HTTP 200, yet the uid of the
`AdmissionResponse` inside the returned `AdmissionReview` is the policy id
("psp-caps"), not the incoming request uid ("U1"): the call site passes
`req.policy_id` into the rejection's uid slot and never passes the request
uid. -/
theorem uid_not_echoed_on_serialization_failure :
    handleValidation
        (fun pid =>
          if pid = "psp-caps" then
            some
              { policy_name := "psp-caps"
                validate := fun _ =>
                  { uid := "", allowed := true, patch := none,
                    patch_type := none, status := none }
                policy_mode := PolicyMode.Protect
                allowed_to_mutate := false
                always_accept_admission_reviews_on_namespace := none }
          else none)
        (fun _ => Except.error "boom")
        "psp-caps"
        { request := some
            { uid := "U1", «namespace» := some "dev", operation := "CREATE",
              request_kind := none }
          response := none } =
      HttpReply.admissionReview
        (AdmissionReview.new_with_response
          (AdmissionResponse.reject "psp-caps"
            "Failed to serialize AdmissionReview: boom" 400)) 200 ∧
    (AdmissionResponse.reject "psp-caps"
      "Failed to serialize AdmissionReview: boom" 400).uid = "psp-caps" ∧
    "psp-caps" ≠ "U1" := by
  refine ⟨by decide, rfl, by decide⟩

/-- C4: counterexample to the metrics half of the claim. At a concrete
dequeued request naming a known policy whose admission request fails to
serialize, the worker does send the synthetic 400 rejection, but the
iteration records no metrics at all: neither a latency-histogram
observation nor an evaluation-counter increment. -/
theorem serialization_failure_not_recorded_in_metrics_cex :
    (workerStep
        (fun pid =>
          if pid = "psp-caps" then
            some
              { policy_name := "psp-caps"
                validate := fun _ =>
                  { uid := "", allowed := true, patch := none,
                    patch_type := none, status := none }
                policy_mode := PolicyMode.Protect
                allowed_to_mutate := false
                always_accept_admission_reviews_on_namespace := none }
          else none)
        (fun _ => Except.error "boom") true
        { policy_id := "psp-caps"
          req := { uid := "U1", «namespace» := some "dev",
                   operation := "CREATE", request_kind := none } }) =
      { replies := [some (AdmissionResponse.reject "psp-caps"
          "Failed to serialize AdmissionReview: boom" 400)]
        metrics := []
        evaluator_calls := 0
        logged_receiver_dropped := false } := by
  decide

/-- C4 (amended): for every dequeued request naming a known policy whose
admission request fails to serialize, the worker replies exactly with the
synthetic rejection `allowed = false`, status code 400 and message
"Failed to serialize AdmissionReview: " followed by the error, without
invoking the evaluator — but the iteration is not recorded in the
evaluation metrics: no latency or counter event is emitted. -/
theorem serialization_failure_synthetic_rejection_without_metrics
    (evaluators : String → Option PolicyEvaluatorWithSettings)
    (serialize : AdmissionRequest → Except String String)
    (receiver_alive : Bool) (req : EvalRequest)
    (pews : PolicyEvaluatorWithSettings) (e : String)
    (h1 : evaluators req.policy_id = some pews)
    (h2 : serialize req.req = Except.error e) :
    (workerStep evaluators serialize receiver_alive req).replies =
      [some
        { uid := req.policy_id
          allowed := false
          patch := none
          patch_type := none
          status := some
            { message := some ("Failed to serialize AdmissionReview: " ++ e)
              code := some 400 } }] ∧
    (workerStep evaluators serialize receiver_alive req).metrics = [] ∧
    (workerStep evaluators serialize receiver_alive req).evaluator_calls = 0 := by
  simp [workerStep, h1, h2, AdmissionResponse.reject]

theorem serialization_failure_synthetic_rejection_without_metrics_witness :
    ((fun (_ : String) =>
        some
          { policy_name := "psp-caps"
            validate := fun _ =>
              ({ uid := "", allowed := true, patch := none,
                 patch_type := none, status := none } : AdmissionResponse)
            policy_mode := PolicyMode.Protect
            allowed_to_mutate := false
            always_accept_admission_reviews_on_namespace :=
              none : PolicyEvaluatorWithSettings })
        "psp-caps" =
      some
        { policy_name := "psp-caps"
          validate := fun _ =>
            { uid := "", allowed := true, patch := none,
              patch_type := none, status := none }
          policy_mode := PolicyMode.Protect
          allowed_to_mutate := false
          always_accept_admission_reviews_on_namespace := none }) ∧
    ((fun (_ : AdmissionRequest) =>
        (Except.error "boom" : Except String String))
        ({ uid := "U1", «namespace» := some "dev", operation := "CREATE",
           request_kind := none } : AdmissionRequest) =
      Except.error "boom") ∧
    (workerStep
        (fun _ =>
          some
            { policy_name := "psp-caps"
              validate := fun _ =>
                { uid := "", allowed := true, patch := none,
                  patch_type := none, status := none }
              policy_mode := PolicyMode.Protect
              allowed_to_mutate := false
              always_accept_admission_reviews_on_namespace := none })
        (fun _ => Except.error "boom") true
        { policy_id := "psp-caps"
          req := { uid := "U1", «namespace» := some "dev",
                   operation := "CREATE", request_kind := none } }).replies =
      [some
        { uid := "psp-caps"
          allowed := false
          patch := none
          patch_type := none
          status := some
            { message := some ("Failed to serialize AdmissionReview: " ++ "boom")
              code := some 400 } }] ∧
    (workerStep
        (fun _ =>
          some
            { policy_name := "psp-caps"
              validate := fun _ =>
                { uid := "", allowed := true, patch := none,
                  patch_type := none, status := none }
              policy_mode := PolicyMode.Protect
              allowed_to_mutate := false
              always_accept_admission_reviews_on_namespace := none })
        (fun _ => Except.error "boom") true
        { policy_id := "psp-caps"
          req := { uid := "U1", «namespace» := some "dev",
                   operation := "CREATE", request_kind := none } }).metrics = [] ∧
    (workerStep
        (fun _ =>
          some
            { policy_name := "psp-caps"
              validate := fun _ =>
                { uid := "", allowed := true, patch := none,
                  patch_type := none, status := none }
              policy_mode := PolicyMode.Protect
              allowed_to_mutate := false
              always_accept_admission_reviews_on_namespace := none })
        (fun _ => Except.error "boom") true
        { policy_id := "psp-caps"
          req := { uid := "U1", «namespace» := some "dev",
                   operation := "CREATE", request_kind := none } }).evaluator_calls = 0 :=
  ⟨rfl, rfl,
    serialization_failure_synthetic_rejection_without_metrics _ _ true
      { policy_id := "psp-caps"
        req := { uid := "U1", «namespace» := some "dev",
                 operation := "CREATE", request_kind := none } }
      _ "boom" rfl rfl⟩

/-- C7: a request naming a policy id absent from the worker's evaluator map
is answered with the distinguished "not known" signal (the reply `none`,
distinct by construction from any `some verdict`) without invoking any
evaluator (`evaluator_calls = 0`), and the HTTP front-end maps that reply
to status 404 with message "requested policy not known". -/
theorem unknown_policy_not_known_signal
    (evaluators : String → Option PolicyEvaluatorWithSettings)
    (serialize : AdmissionRequest → Except String String)
    (policy_id : String) (adm_req : AdmissionRequest)
    (h : evaluators policy_id = none) :
    workerStep evaluators serialize true
        { policy_id := policy_id, req := adm_req } =
      { replies := [none], metrics := [], evaluator_calls := 0,
        logged_receiver_dropped := false } ∧
    handleValidation evaluators serialize policy_id
        { request := some adm_req, response := none } =
      HttpReply.errorReply "requested policy not known" 404 := by
  constructor
  · simp [workerStep, h]
  · simp [handleValidation, workerStep, h, validationReply]

theorem unknown_policy_not_known_signal_witness :
    ((fun (_ : String) => (none : Option PolicyEvaluatorWithSettings))
        "psp-caps" = none) ∧
    workerStep (fun _ => none) (fun _ => Except.ok "") true
        { policy_id := "psp-caps"
          req := { uid := "U1", «namespace» := some "dev",
                   operation := "CREATE", request_kind := none } } =
      { replies := [none], metrics := [], evaluator_calls := 0,
        logged_receiver_dropped := false } ∧
    handleValidation (fun _ => none) (fun _ => Except.ok "") "psp-caps"
        { request := some
            { uid := "U1", «namespace» := some "dev", operation := "CREATE",
              request_kind := none }
          response := none } =
      HttpReply.errorReply "requested policy not known" 404 :=
  ⟨rfl,
    (unknown_policy_not_known_signal (fun _ => none) (fun _ => Except.ok "")
      "psp-caps"
      { uid := "U1", «namespace» := some "dev", operation := "CREATE",
        request_kind := none } rfl).1,
    (unknown_policy_not_known_signal (fun _ => none) (fun _ => Except.ok "")
      "psp-caps"
      { uid := "U1", «namespace» := some "dev", operation := "CREATE",
        request_kind := none } rfl).2⟩

/-- C8: every iteration of the worker loop sends exactly one value on the
dequeued request's reply sink, in every branch (known policy, unknown
policy, serialization failure); the loop processes every dequeued request
in order whatever the per-request receiver liveness (a failed send does not
stop it), and a dropped receiver is recorded as a logged error. -/
theorem worker_replies_exactly_once_and_loop_continues
    (evaluators : String → Option PolicyEvaluatorWithSettings)
    (serialize : AdmissionRequest → Except String String) :
    (∀ (receiver_alive : Bool) (req : EvalRequest),
      (workerStep evaluators serialize receiver_alive req).replies.length = 1) ∧
    (∀ (alive : EvalRequest → Bool) (reqs : List EvalRequest),
      workerRun evaluators serialize alive reqs =
        reqs.map (fun req => workerStep evaluators serialize (alive req) req)) ∧
    (∀ req : EvalRequest,
      (workerStep evaluators serialize false req).logged_receiver_dropped = true) := by
  refine ⟨fun receiver_alive req => ?_, fun alive reqs => ?_, fun req => ?_⟩
  · rcases h : evaluators req.policy_id with _ | pews
    · simp [workerStep, h]
    · rcases h2 : serialize req.req with e | json <;> simp [workerStep, h, h2]
  · induction reqs with
    | nil => rfl
    | cons req rest ih => simp [workerRun, ih]
  · rcases h : evaluators req.policy_id with _ | pews
    · simp [workerStep, h]
    · rcases h2 : serialize req.req with e | json <;> simp [workerStep, h, h2]
